import Mathlib

/-
Verification of the natural-language specification of pspectre-cuda, a CUDA
port of SpectRE (a spectral code for cosmological reheating), against a
shallow embedding of its source.

The embedding covers:
  * `verlet.cu`: the mode-wise Klein-Gordon accelerations `dphidotdt` and
    `dchidotdt`, the kernels `verlet_init_kernel` and `verlet_step_kernel`,
    and the host functions `verlet<R>::initialize` and `verlet<R>::step`
    (including the CPU kick-drift loop with its gradient reduction);
  * the slice output manager translation unit: `compute_phi`,
    `compute_rho` and its ingredients, `write_array_to_file` and
    `slice_output_manager<R>::output`.

Modelling conventions: C `double` arithmetic is modelled by exact real
arithmetic; `pow(x, y)` on doubles becomes `Real.rpow`.  The momentum-space
grids (`fftw_complex` arrays indexed by `z + (n/2+1)*(y + n*x)`) are
modelled as functions from the coordinate triple `(x, y, z)` to a pair of
reals (the two components `c = 0, 1` of the unrolled component loop).
The collaborators whose code is not part of this translation unit
(`vi.integrate`, `mp.adoubledot`, `mp.adoubledot_staggered`,
`integrator<R>::avg_gradients`, `nlt.transform`, `model_params::V`, the GPU
gradient cache `gc` and the FFT `switch_state`) enter as opaque function
parameters; `switch_state` is modelled, per the spec's field-container
contract, as changing only the representation flag while preserving the
mathematical contents.  File output is modelled at the level of a list of
doubles per file (8 bytes per stored double) together with the stream of
diagnostic messages the process emits.
-/

namespace PSpectre

/-- A stored mode of the Hermitian-packed momentum grid: the coordinate
triple `(x, y, z)` with `z` in the half slab. -/
abbrev Mode : Type := ℕ × ℕ × ℕ

/-- A momentum-space complex array: each stored mode holds the two
components `c = 0, 1` (real and imaginary part). -/
abbrev CGrid : Type := Mode → ℝ × ℝ

/-- The model parameters (fields of `model_params<double>` used by
`verlet.cu`), all C doubles in the source. -/
structure ModelParams where
  rescale_A : ℝ
  rescale_B : ℝ
  rescale_r : ℝ
  rescale_s : ℝ
  m_phi : ℝ
  m_chi : ℝ
  lambda_phi : ℝ
  lambda_chi : ℝ
  g : ℝ
  gamma_phi : ℝ
  gamma_chi : ℝ
  md_e_phi : ℝ
  md_e_chi : ℝ
  dp : ℝ

/-- Source function `dphidotdt` of `verlet.cu`: the Klein-Gordon second time derivative
of a `phi` mode in program units, momentum space. -/
noncomputable def dphidotdt (mp : ModelParams)
    (phi chi chi2phi phi3 phi5 phi_md a_t adot_t addot_t mom2 : ℝ) : ℝ :=
  -a_t ^ (-2 * mp.rescale_s - 2) * mom2 * phi +
    mp.rescale_r * ((mp.rescale_s - mp.rescale_r + 2) * (adot_t / a_t) ^ 2
      + addot_t / a_t) * phi -
    a_t ^ (-2 * mp.rescale_s - 2 * mp.rescale_r) / mp.rescale_B ^ 2 *
      ((if mp.md_e_phi ≠ 0 then a_t ^ (2 * mp.rescale_r) * phi_md
        else mp.m_phi ^ 2 * a_t ^ (2 * mp.rescale_r) * phi) +
       mp.lambda_phi / mp.rescale_A ^ 2 * phi3 +
       (mp.g / mp.rescale_A) ^ 2 * chi2phi +
       mp.gamma_phi / mp.rescale_A ^ 4 * a_t ^ (-2 * mp.rescale_r) * phi5)

/-- Source function `dchidotdt` of `verlet.cu`: the Klein-Gordon second time derivative
of a `chi` mode in program units, momentum space. -/
noncomputable def dchidotdt (mp : ModelParams)
    (phi chi phi2chi chi3 chi5 chi_md a_t adot_t addot_t mom2 : ℝ) : ℝ :=
  -a_t ^ (-2 * mp.rescale_s - 2) * mom2 * chi +
    mp.rescale_r * ((mp.rescale_s - mp.rescale_r + 2) * (adot_t / a_t) ^ 2
      + addot_t / a_t) * chi -
    a_t ^ (-2 * mp.rescale_s - 2 * mp.rescale_r) / mp.rescale_B ^ 2 *
      ((if mp.md_e_chi ≠ 0 then a_t ^ (2 * mp.rescale_r) * chi_md
        else mp.m_chi ^ 2 * a_t ^ (2 * mp.rescale_r) * chi) +
       mp.lambda_chi / mp.rescale_A ^ 2 * chi3 +
       (mp.g / mp.rescale_A) ^ 2 * phi2chi +
       mp.gamma_chi / mp.rescale_A ^ 4 * a_t ^ (-2 * mp.rescale_r) * chi5)

/-- The centred momentum index: `px = x` if `x <= n/2`, else `x - n`
(int arithmetic in the source). -/
def pxOf (n x : ℕ) : ℤ :=
  if x ≤ n / 2 then (x : ℤ) else (x : ℤ) - (n : ℤ)

/-- The squared momentum magnitude of the stored mode `k`:
`mom2 = dp^2 * (px^2 + py^2 + pz^2)` with centred `px`, `py` and `pz = z`. -/
noncomputable def mom2Of (dp : ℝ) (n : ℕ) (k : Mode) : ℝ :=
  dp ^ 2 * (((pxOf n k.1 : ℤ) : ℝ) ^ 2 + ((pxOf n k.2.1 : ℤ) : ℝ) ^ 2
    + (k.2.2 : ℝ) ^ 2)

/-- The nonlinear product fields owned by the nonlinear-terms builder
`nlt`, delivered in momentum space. -/
structure Products where
  chi2phi : CGrid
  phi2chi : CGrid
  phi3 : CGrid
  chi3 : CGrid
  phi5 : CGrid
  chi5 : CGrid
  phi_md : CGrid
  chi_md : CGrid

/-- One component of the kernel body for `phiddot`: the coupling-gated
reads of the product arrays (`lambda_phi != 0 ? phi3_p[idx][c] : 0.0`
etc.) followed by the call to `dphidotdt`. -/
noncomputable def gatedPhiAcc (mp : ModelParams)
    (phi chi chi2phi phi3 phi5 phi_md a adot addot mom2 : ℝ) : ℝ :=
  dphidotdt mp phi chi chi2phi
    (if mp.lambda_phi ≠ 0 then phi3 else 0)
    (if mp.gamma_phi ≠ 0 then phi5 else 0)
    (if mp.md_e_phi ≠ 0 then phi_md else 0)
    a adot addot mom2

/-- One component of the kernel body for `chiddot`: gated reads followed
by the call to `dchidotdt`. -/
noncomputable def gatedChiAcc (mp : ModelParams)
    (phi chi phi2chi chi3 chi5 chi_md a adot addot mom2 : ℝ) : ℝ :=
  dchidotdt mp phi chi phi2chi
    (if mp.lambda_chi ≠ 0 then chi3 else 0)
    (if mp.gamma_chi ≠ 0 then chi5 else 0)
    (if mp.md_e_chi ≠ 0 then chi_md else 0)
    a adot addot mom2

/-- The `phiddot` value the GPU kernels store at mode `k` (both unrolled
components of the `c` loop). -/
noncomputable def kernelAccPhi (mp : ModelParams) (pr : Products)
    (phi chi : CGrid) (a adot addot : ℝ) (n : ℕ) (k : Mode) : ℝ × ℝ :=
  (gatedPhiAcc mp (phi k).1 (chi k).1 (pr.chi2phi k).1 (pr.phi3 k).1
      (pr.phi5 k).1 (pr.phi_md k).1 a adot addot (mom2Of mp.dp n k),
   gatedPhiAcc mp (phi k).2 (chi k).2 (pr.chi2phi k).2 (pr.phi3 k).2
      (pr.phi5 k).2 (pr.phi_md k).2 a adot addot (mom2Of mp.dp n k))

/-- The `chiddot` value the GPU kernels store at mode `k`. -/
noncomputable def kernelAccChi (mp : ModelParams) (pr : Products)
    (phi chi : CGrid) (a adot addot : ℝ) (n : ℕ) (k : Mode) : ℝ × ℝ :=
  (gatedChiAcc mp (phi k).1 (chi k).1 (pr.phi2chi k).1 (pr.chi3 k).1
      (pr.chi5 k).1 (pr.chi_md k).1 a adot addot (mom2Of mp.dp n k),
   gatedChiAcc mp (phi k).2 (chi k).2 (pr.phi2chi k).2 (pr.chi3 k).2
      (pr.chi5 k).2 (pr.chi_md k).2 a adot addot (mom2Of mp.dp n k))

/-- The claim's Klein-Gordon acceleration formula, written from the spec:
`-a^(-2s-2) k^2 f + r ((s-r+2)(adot/a)^2 + addot/a) f
 - a^(-2s-2r)/B^2 (M + lambda_f/A^2 f3 + (g/A)^2 cross
                     + gamma_f/A^4 a^(-2r) f5)`
with `M = a^(2r) f_md` when the mass-damping exponent is nonzero, and
`m_f^2 a^(2r) f` otherwise; the per-field constants are passed in so the
same formula serves `phi` and `chi` symmetrically. -/
noncomputable def specKGAcc (mp : ModelParams)
    (m_f lambda_f gamma_f md_e_f : ℝ)
    (f cross f3 f5 f_md a adot addot k2 : ℝ) : ℝ :=
  -a ^ (-2 * mp.rescale_s - 2) * k2 * f +
    mp.rescale_r * ((mp.rescale_s - mp.rescale_r + 2) * (adot / a) ^ 2
      + addot / a) * f -
    a ^ (-2 * mp.rescale_s - 2 * mp.rescale_r) / mp.rescale_B ^ 2 *
      ((if md_e_f ≠ 0 then a ^ (2 * mp.rescale_r) * f_md
        else m_f ^ 2 * a ^ (2 * mp.rescale_r) * f) +
       lambda_f / mp.rescale_A ^ 2 * f3 +
       (mp.g / mp.rescale_A) ^ 2 * cross +
       gamma_f / mp.rescale_A ^ 4 * a ^ (-2 * mp.rescale_r) * f5)

lemma gatedPhiAcc_eq_spec (mp : ModelParams)
    (phi chi chi2phi phi3 phi5 phi_md a adot addot mom2 : ℝ) :
    gatedPhiAcc mp phi chi chi2phi phi3 phi5 phi_md a adot addot mom2 =
      specKGAcc mp mp.m_phi mp.lambda_phi mp.gamma_phi mp.md_e_phi
        phi chi2phi phi3 phi5 phi_md a adot addot mom2 := by
  unfold gatedPhiAcc dphidotdt specKGAcc
  by_cases hl : mp.lambda_phi = 0 <;>
    by_cases hg : mp.gamma_phi = 0 <;>
      by_cases hm : mp.md_e_phi = 0 <;>
        simp [hl, hg, hm]

lemma gatedChiAcc_eq_spec (mp : ModelParams)
    (phi chi phi2chi chi3 chi5 chi_md a adot addot mom2 : ℝ) :
    gatedChiAcc mp phi chi phi2chi chi3 chi5 chi_md a adot addot mom2 =
      specKGAcc mp mp.m_chi mp.lambda_chi mp.gamma_chi mp.md_e_chi
        chi phi2chi chi3 chi5 chi_md a adot addot mom2 := by
  unfold gatedChiAcc dchidotdt specKGAcc
  by_cases hl : mp.lambda_chi = 0 <;>
    by_cases hg : mp.gamma_chi = 0 <;>
      by_cases hm : mp.md_e_chi = 0 <;>
        simp [hl, hg, hm]

/-- C1.  For every stored mode `(x, y, z)` of the Hermitian-packed grid and
both components, the acceleration the kernels compute via `dphidotdt`
equals the spec's formula
`-a^(-2s-2) k^2 phi + r ((s-r+2)(adot/a)^2 + addot/a) phi
 - a^(-2s-2r)/B^2 (M + lambda_phi/A^2 phi3 + (g/A)^2 chi2phi
                   + gamma_phi/A^4 a^(-2r) phi5)`
with `k^2 = dp^2 (px^2 + py^2 + pz^2)` for centred indices and
`M = a^(2r) phi_md` when `md_e_phi` is nonzero, `m_phi^2 a^(2r) phi`
otherwise; `dchidotdt` gives the symmetric formula with `phi` and `chi`
exchanged (cross term `phi2chi`).  The coupling gating in the kernels
(`lambda_phi != 0 ? phi3_p[idx][c] : 0.0`, etc.) does not change the
value. -/
theorem dphidotdt_dchidotdt_match_spec (mp : ModelParams) (pr : Products)
    (phi chi : CGrid) (a adot addot : ℝ) (n : ℕ) (k : Mode) :
    kernelAccPhi mp pr phi chi a adot addot n k =
      (specKGAcc mp mp.m_phi mp.lambda_phi mp.gamma_phi mp.md_e_phi
         (phi k).1 (pr.chi2phi k).1 (pr.phi3 k).1 (pr.phi5 k).1
         (pr.phi_md k).1 a adot addot
         (mp.dp ^ 2 * (((pxOf n k.1 : ℤ) : ℝ) ^ 2
           + ((pxOf n k.2.1 : ℤ) : ℝ) ^ 2 + (k.2.2 : ℝ) ^ 2)),
       specKGAcc mp mp.m_phi mp.lambda_phi mp.gamma_phi mp.md_e_phi
         (phi k).2 (pr.chi2phi k).2 (pr.phi3 k).2 (pr.phi5 k).2
         (pr.phi_md k).2 a adot addot
         (mp.dp ^ 2 * (((pxOf n k.1 : ℤ) : ℝ) ^ 2
           + ((pxOf n k.2.1 : ℤ) : ℝ) ^ 2 + (k.2.2 : ℝ) ^ 2))) ∧
    kernelAccChi mp pr phi chi a adot addot n k =
      (specKGAcc mp mp.m_chi mp.lambda_chi mp.gamma_chi mp.md_e_chi
         (chi k).1 (pr.phi2chi k).1 (pr.chi3 k).1 (pr.chi5 k).1
         (pr.chi_md k).1 a adot addot
         (mp.dp ^ 2 * (((pxOf n k.1 : ℤ) : ℝ) ^ 2
           + ((pxOf n k.2.1 : ℤ) : ℝ) ^ 2 + (k.2.2 : ℝ) ^ 2)),
       specKGAcc mp mp.m_chi mp.lambda_chi mp.gamma_chi mp.md_e_chi
         (chi k).2 (pr.phi2chi k).2 (pr.chi3 k).2 (pr.chi5 k).2
         (pr.chi_md k).2 a adot addot
         (mp.dp ^ 2 * (((pxOf n k.1 : ℤ) : ℝ) ^ 2
           + ((pxOf n k.2.1 : ℤ) : ℝ) ^ 2 + (k.2.2 : ℝ) ^ 2))) := by
  constructor
  · unfold kernelAccPhi mom2Of
    rw [gatedPhiAcc_eq_spec, gatedPhiAcc_eq_spec]
  · unfold kernelAccChi mom2Of
    rw [gatedChiAcc_eq_spec, gatedChiAcc_eq_spec]

/-- The grid extent data (`field_size fs`): the lattice size `n` and the
total number of gridpoints. -/
structure FieldSize where
  n : ℕ
  total_gridpoints : ℕ

/-- The collaborators of the Verlet integrator whose code lives in other
translation units: the potential integrator `vi.integrate`, the
scale-factor dynamics `mp.adoubledot` / `mp.adoubledot_staggered`, the
initial gradient averages `integrator<R>::avg_gradients` and the
nonlinear-terms builder `nlt.transform`. -/
structure Collab where
  integrate : CGrid → CGrid → ℝ → ℝ
  adoubledot : ℝ → ℝ → ℝ → ℝ → ℝ → ℝ → ℝ
  adoubledot_staggered : ℝ → ℝ → ℝ → ℝ → ℝ → ℝ → ℝ → ℝ
  avg_gradients : CGrid → CGrid → ℝ × ℝ
  transform : CGrid → CGrid → ℝ → Products

/-- The state owned or borrowed by `verlet<R>`: the fields and their
derivatives in momentum space, the builder's product arrays, the time
state `ts` and the scalar integrator scratch.  `total_gradient_phi` and
`total_gradient_chi` carry the per-step gradient reduction locals. -/
structure VState where
  phi : CGrid
  chi : CGrid
  phidot : CGrid
  chidot : CGrid
  phiddot : CGrid
  chiddot : CGrid
  phidot_staggered : CGrid
  chidot_staggered : CGrid
  prods : Products
  t : ℝ
  a : ℝ
  adot : ℝ
  addot : ℝ
  dt : ℝ
  physical_time : ℝ
  dptdt : ℝ
  ddptdt : ℝ
  adot_staggered : ℝ
  dptdt_staggered : ℝ
  total_gradient_phi : ℝ
  total_gradient_chi : ℝ

/-- A stored mode is covered by the kernel launch and the CPU loop when
`x < n`, `y < n` and `z < n/2 + 1`. -/
def inGrid (n : ℕ) (k : Mode) : Prop :=
  k.1 < n ∧ k.2.1 < n ∧ k.2.2 < n / 2 + 1

instance (n : ℕ) (k : Mode) : Decidable (inGrid n k) := by
  unfold inGrid; infer_instance

/-- The staggered velocity written in the loop body:
`phidot + 0.5 * phiddot * dt`, both components. -/
noncomputable def pdsVal (s : VState) (k : Mode) : ℝ × ℝ :=
  ((s.phidot k).1 + 0.5 * (s.phiddot k).1 * s.dt,
   (s.phidot k).2 + 0.5 * (s.phiddot k).2 * s.dt)

/-- The staggered velocity written in the loop body for `chi`. -/
noncomputable def cdsVal (s : VState) (k : Mode) : ℝ × ℝ :=
  ((s.chidot k).1 + 0.5 * (s.chiddot k).1 * s.dt,
   (s.chidot k).2 + 0.5 * (s.chiddot k).2 * s.dt)

/-- The drifted `phi` value at mode `k` given its previous value `v`:
`v + phidot_staggered * dt`, both components. -/
noncomputable def phiDrift (s : VState) (v : ℝ × ℝ) (k : Mode) : ℝ × ℝ :=
  (v.1 + (pdsVal s k).1 * s.dt, v.2 + (pdsVal s k).2 * s.dt)

/-- The drifted `chi` value at mode `k` given its previous value `v`. -/
noncomputable def chiDrift (s : VState) (v : ℝ × ℝ) (k : Mode) : ℝ × ℝ :=
  (v.1 + (cdsVal s k).1 * s.dt, v.2 + (cdsVal s k).2 * s.dt)

/-- The parity weight of the Hermitian half-grid: `1` when `z = 0` or
`z = n/2`, else `2` (`mom2 *= (z == 0 || z == fs.n/2) ? 1 : 2`). -/
noncomputable def parityW (n : ℕ) (k : Mode) : ℝ :=
  if k.2.2 = 0 ∨ k.2.2 = n / 2 then 1 else 2

/-- The gradient-sum contribution of mode `k` for `phi`, in terms of the
pre-drift value `v` of the mode. -/
noncomputable def gContribPhi (mp : ModelParams) (n : ℕ) (s : VState)
    (v : ℝ × ℝ) (k : Mode) : ℝ :=
  mom2Of mp.dp n k * parityW n k *
    ((phiDrift s v k).1 ^ 2 + (phiDrift s v k).2 ^ 2)

/-- The gradient-sum contribution of mode `k` for `chi`. -/
noncomputable def gContribChi (mp : ModelParams) (n : ℕ) (s : VState)
    (v : ℝ × ℝ) (k : Mode) : ℝ :=
  mom2Of mp.dp n k * parityW n k *
    ((chiDrift s v k).1 ^ 2 + (chiDrift s v k).2 ^ 2)

/-- The running state of the CPU kick-drift loop in `verlet<R>::step`:
the four arrays it writes and the two gradient accumulators. -/
structure LoopState where
  phi : CGrid
  chi : CGrid
  pds : CGrid
  cds : CGrid
  tgphi : ℝ
  tgchi : ℝ

/-- One iteration of the CPU loop of `verlet<R>::step` at mode `k`:
write the staggered velocities, drift the fields, then accumulate the
parity-weighted gradient contributions of the freshly drifted mode. -/
noncomputable def loopBody (mp : ModelParams) (n : ℕ) (s : VState)
    (ls : LoopState) (k : Mode) : LoopState :=
  let pv := pdsVal s k
  let cv := cdsVal s k
  let phiv := phiDrift s (ls.phi k) k
  let chiv := chiDrift s (ls.chi k) k
  { phi := Function.update ls.phi k phiv
    chi := Function.update ls.chi k chiv
    pds := Function.update ls.pds k pv
    cds := Function.update ls.cds k cv
    tgphi := ls.tgphi + mom2Of mp.dp n k * parityW n k *
      (phiv.1 ^ 2 + phiv.2 ^ 2)
    tgchi := ls.tgchi + mom2Of mp.dp n k * parityW n k *
      (chiv.1 ^ 2 + chiv.2 ^ 2) }

/-- The iteration order of the triple loop
`for x < n, for y < n, for z < n/2 + 1`. -/
def modeList (n : ℕ) : List Mode :=
  (List.range n).flatMap fun x =>
    (List.range n).flatMap fun y =>
      (List.range (n / 2 + 1)).map fun z => (x, y, z)

lemma mem_modeList {n : ℕ} {k : Mode} :
    k ∈ modeList n ↔ inGrid n k := by
  obtain ⟨x, y, z⟩ := k
  simp only [modeList, inGrid, List.mem_flatMap, List.mem_map,
    List.mem_range]
  constructor
  · rintro ⟨a, ha, b, hb, c, hc, hk⟩
    injection hk with h1 h2
    injection h2 with h2 h3
    exact ⟨h1 ▸ ha, h2 ▸ hb, h3 ▸ hc⟩
  · rintro ⟨hx, hy, hz⟩
    exact ⟨x, hx, y, hy, z, hz, rfl⟩

lemma nodup_bind_tag {α β : Type} (g : β → α) (l : List α) (f : α → List β)
    (hl : l.Nodup) (hf : ∀ a, (f a).Nodup)
    (htag : ∀ a, ∀ b ∈ f a, g b = a) :
    (l.flatMap f).Nodup := by
  induction l with
  | nil => simp
  | cons a t ih =>
    rw [List.flatMap_cons]
    refine List.Nodup.append (hf a) (ih hl.of_cons) ?_
    intro b hb1 hb2
    obtain ⟨c, hc, hbc⟩ := List.mem_flatMap.mp hb2
    have h1 : g b = a := htag a b hb1
    have h2 : g b = c := htag c b hbc
    exact (List.nodup_cons.mp hl).1 (h1 ▸ h2 ▸ hc)

lemma modeList_nodup (n : ℕ) : (modeList n).Nodup := by
  refine nodup_bind_tag Prod.fst (List.range n) _ (List.nodup_range n)
    (fun x => ?_) (fun x b hb => ?_)
  · refine nodup_bind_tag (fun k => k.2.1) (List.range n) _
      (List.nodup_range n) (fun y => ?_) (fun y b hb => ?_)
    · exact (List.nodup_range _).map fun z z' h => by
        injection h with h1 h2; injection h2
    · obtain ⟨z, _, rfl⟩ := List.mem_map.mp hb
      rfl
  · obtain ⟨y, _, b', hb', rfl⟩ := by
      simpa only [List.mem_flatMap, List.mem_map, List.mem_range] using hb
    rfl

lemma loopFold_grids (mp : ModelParams) (n : ℕ) (s : VState) :
    ∀ (l : List Mode), l.Nodup → ∀ (ls : LoopState) (k : Mode),
      ((l.foldl (loopBody mp n s) ls).pds k
        = if k ∈ l then pdsVal s k else ls.pds k) ∧
      ((l.foldl (loopBody mp n s) ls).cds k
        = if k ∈ l then cdsVal s k else ls.cds k) ∧
      ((l.foldl (loopBody mp n s) ls).phi k
        = if k ∈ l then phiDrift s (ls.phi k) k else ls.phi k) ∧
      ((l.foldl (loopBody mp n s) ls).chi k
        = if k ∈ l then chiDrift s (ls.chi k) k else ls.chi k) := by
  intro l
  induction l with
  | nil => simp
  | cons a t ih =>
    intro hnd ls k
    obtain ⟨hat, ht⟩ := List.nodup_cons.mp hnd
    have h := ih ht (loopBody mp n s ls a) k
    rw [List.foldl_cons]
    by_cases hk : k = a
    · subst hk
      have hkt : k ∉ t := hat
      obtain ⟨h1, h2, h3, h4⟩ := h
      rw [if_neg hkt] at h1 h2 h3 h4
      have e1 : (loopBody mp n s ls k).pds k = pdsVal s k := by
        simp [loopBody, Function.update_same]
      have e2 : (loopBody mp n s ls k).cds k = cdsVal s k := by
        simp [loopBody, Function.update_same]
      have e3 : (loopBody mp n s ls k).phi k = phiDrift s (ls.phi k) k := by
        simp [loopBody, Function.update_same]
      have e4 : (loopBody mp n s ls k).chi k = chiDrift s (ls.chi k) k := by
        simp [loopBody, Function.update_same]
      have hm : k ∈ k :: t := List.mem_cons_self k t
      refine ⟨?_, ?_, ?_, ?_⟩
      · rw [h1, e1, if_pos hm]
      · rw [h2, e2, if_pos hm]
      · rw [h3, e3, if_pos hm]
      · rw [h4, e4, if_pos hm]
    · have hb1 : (loopBody mp n s ls a).pds k = ls.pds k :=
        Function.update_noteq hk _ _
      have hb2 : (loopBody mp n s ls a).cds k = ls.cds k :=
        Function.update_noteq hk _ _
      have hb3 : (loopBody mp n s ls a).phi k = ls.phi k :=
        Function.update_noteq hk _ _
      have hb4 : (loopBody mp n s ls a).chi k = ls.chi k :=
        Function.update_noteq hk _ _
      obtain ⟨h1, h2, h3, h4⟩ := h
      rw [hb1] at h1; rw [hb2] at h2
      rw [hb3] at h3; rw [hb4] at h4
      rw [h1, h2, h3, h4]
      simp [List.mem_cons, hk]

lemma loopFold_totals (mp : ModelParams) (n : ℕ) (s : VState) :
    ∀ (l : List Mode), l.Nodup → ∀ (ls : LoopState),
      ((l.foldl (loopBody mp n s) ls).tgphi
        = ls.tgphi + (l.map fun k => gContribPhi mp n s (ls.phi k) k).sum) ∧
      ((l.foldl (loopBody mp n s) ls).tgchi
        = ls.tgchi + (l.map fun k => gContribChi mp n s (ls.chi k) k).sum) := by
  intro l
  induction l with
  | nil => simp
  | cons a t ih =>
    intro hnd ls
    obtain ⟨hat, ht⟩ := List.nodup_cons.mp hnd
    have h := ih ht (loopBody mp n s ls a)
    rw [List.foldl_cons]
    obtain ⟨h1, h2⟩ := h
    have hmapφ : (t.map fun k => gContribPhi mp n s
        ((loopBody mp n s ls a).phi k) k)
        = t.map fun k => gContribPhi mp n s (ls.phi k) k := by
      refine List.map_congr_left fun k hk => ?_
      have : (loopBody mp n s ls a).phi k = ls.phi k :=
        Function.update_noteq (by rintro rfl; exact hat hk) _ _
      rw [this]
    have hmapχ : (t.map fun k => gContribChi mp n s
        ((loopBody mp n s ls a).chi k) k)
        = t.map fun k => gContribChi mp n s (ls.chi k) k := by
      refine List.map_congr_left fun k hk => ?_
      have : (loopBody mp n s ls a).chi k = ls.chi k :=
        Function.update_noteq (by rintro rfl; exact hat hk) _ _
      rw [this]
    rw [hmapφ] at h1
    rw [hmapχ] at h2
    constructor
    · rw [h1]
      show ls.tgphi + gContribPhi mp n s (ls.phi a) a + _ = _
      rw [List.map_cons, List.sum_cons, add_assoc]
    · rw [h2]
      show ls.tgchi + gContribChi mp n s (ls.chi a) a + _ = _
      rw [List.map_cons, List.sum_cons, add_assoc]

/-- The CPU kick-drift loop of `verlet<R>::step`, started from the
integrator's current arrays and zeroed accumulators. -/
noncomputable def stepLoop (mp : ModelParams) (fs : FieldSize)
    (s : VState) : LoopState :=
  (modeList fs.n).foldl (loopBody mp fs.n s)
    { phi := s.phi, chi := s.chi, pds := s.phidot_staggered,
      cds := s.chidot_staggered, tgphi := 0, tgchi := 0 }

/-- Source function `verlet<R>::step`, parametric in the two kernel acceleration
functions (instantiated with the source's gated kernels for `step`, and
with the spec's term-skipping variants for the gating claim). -/
noncomputable def stepCore
    (accP accC : ModelParams → Products → CGrid → CGrid → ℝ → ℝ → ℝ → ℕ →
      Mode → ℝ × ℝ)
    (mp : ModelParams) (fs : FieldSize) (co : Collab) (s : VState) :
    VState :=
  let adots := s.adot + 0.5 * s.addot * s.dt
  let dptdts := s.dptdt + 0.5 * s.ddptdt * s.dt
  let a2 := s.a + s.adot * s.dt + 0.5 * s.addot * s.dt ^ 2
  let pt2 := s.physical_time + s.dptdt * s.dt + 0.5 * s.ddptdt * s.dt ^ 2
  let ls := stepLoop mp fs s
  let gphi := ls.tgphi / (fs.total_gridpoints : ℝ) ^ 2
  let gchi := ls.tgchi / (fs.total_gridpoints : ℝ) ^ 2
  let avgV := co.integrate ls.phi ls.chi a2
  let addot2 := co.adoubledot_staggered s.t s.dt a2 adots gphi gchi avgV
  let adot2 := adots + 0.5 * addot2 * s.dt
  let ddptdt2 := -mp.rescale_s / mp.rescale_B * a2 ^ (-mp.rescale_s - 1)
    * adot2
  let dptdt2 := dptdts + 0.5 * ddptdt2 * s.dt
  let prods2 := co.transform ls.phi ls.chi a2
  { phi := ls.phi
    chi := ls.chi
    phidot := fun k => if inGrid fs.n k then
        ((ls.pds k).1 + 0.5 * (accP mp prods2 ls.phi ls.chi a2 adot2 addot2
            fs.n k).1 * s.dt,
         (ls.pds k).2 + 0.5 * (accP mp prods2 ls.phi ls.chi a2 adot2 addot2
            fs.n k).2 * s.dt)
      else s.phidot k
    chidot := fun k => if inGrid fs.n k then
        ((ls.cds k).1 + 0.5 * (accC mp prods2 ls.phi ls.chi a2 adot2 addot2
            fs.n k).1 * s.dt,
         (ls.cds k).2 + 0.5 * (accC mp prods2 ls.phi ls.chi a2 adot2 addot2
            fs.n k).2 * s.dt)
      else s.chidot k
    phiddot := fun k => if inGrid fs.n k then
        accP mp prods2 ls.phi ls.chi a2 adot2 addot2 fs.n k
      else s.phiddot k
    chiddot := fun k => if inGrid fs.n k then
        accC mp prods2 ls.phi ls.chi a2 adot2 addot2 fs.n k
      else s.chiddot k
    phidot_staggered := ls.pds
    chidot_staggered := ls.cds
    prods := prods2
    t := s.t
    a := a2
    adot := adot2
    addot := addot2
    dt := s.dt
    physical_time := pt2
    dptdt := dptdt2
    ddptdt := ddptdt2
    adot_staggered := adots
    dptdt_staggered := dptdts
    total_gradient_phi := ls.tgphi
    total_gradient_chi := ls.tgchi }

/-- Source function `verlet<R>::step` with the source's gated kernel accelerations. -/
noncomputable def step (mp : ModelParams) (fs : FieldSize) (co : Collab)
    (s : VState) : VState :=
  stepCore kernelAccPhi kernelAccChi mp fs co s

/-- Source function `verlet<R>::initialize`, parametric in the kernel acceleration
functions. -/
noncomputable def vinitCore
    (accP accC : ModelParams → Products → CGrid → CGrid → ℝ → ℝ → ℝ → ℕ →
      Mode → ℝ × ℝ)
    (mp : ModelParams) (fs : FieldSize) (co : Collab) (s : VState) :
    VState :=
  let gs := co.avg_gradients s.phi s.chi
  let avgV := co.integrate s.phi s.chi s.a
  let addot2 := co.adoubledot s.t s.a s.adot gs.1 gs.2 avgV
  let ddptdt2 := -mp.rescale_s / mp.rescale_B * s.a ^ (-mp.rescale_s - 1)
    * s.adot
  let prods2 := co.transform s.phi s.chi s.a
  { s with
    addot := addot2
    ddptdt := ddptdt2
    prods := prods2
    phiddot := fun k => if inGrid fs.n k then
        accP mp prods2 s.phi s.chi s.a s.adot addot2 fs.n k
      else s.phiddot k
    chiddot := fun k => if inGrid fs.n k then
        accC mp prods2 s.phi s.chi s.a s.adot addot2 fs.n k
      else s.chiddot k }

/-- Source function `verlet<R>::initialize` with the source's gated kernel accelerations. -/
noncomputable def vinit (mp : ModelParams) (fs : FieldSize) (co : Collab)
    (s : VState) : VState :=
  vinitCore kernelAccPhi kernelAccChi mp fs co s

lemma stepLoop_grids (mp : ModelParams) (fs : FieldSize) (s : VState)
    {k : Mode} (hk : inGrid fs.n k) :
    (stepLoop mp fs s).pds k = pdsVal s k ∧
    (stepLoop mp fs s).cds k = cdsVal s k ∧
    (stepLoop mp fs s).phi k = phiDrift s (s.phi k) k ∧
    (stepLoop mp fs s).chi k = chiDrift s (s.chi k) k := by
  have hmem : k ∈ modeList fs.n := mem_modeList.mpr hk
  have h := loopFold_grids mp fs.n s (modeList fs.n) (modeList_nodup _)
    { phi := s.phi, chi := s.chi, pds := s.phidot_staggered,
      cds := s.chidot_staggered, tgphi := 0, tgchi := 0 } k
  obtain ⟨h1, h2, h3, h4⟩ := h
  rw [if_pos hmem] at h1 h2 h3 h4
  exact ⟨h1, h2, h3, h4⟩

lemma stepLoop_tg (mp : ModelParams) (fs : FieldSize) (s : VState) :
    (stepLoop mp fs s).tgphi
      = ((modeList fs.n).map fun k => gContribPhi mp fs.n s (s.phi k) k).sum ∧
    (stepLoop mp fs s).tgchi
      = ((modeList fs.n).map fun k => gContribChi mp fs.n s (s.chi k) k).sum := by
  have h := loopFold_totals mp fs.n s (modeList fs.n) (modeList_nodup _)
    { phi := s.phi, chi := s.chi, pds := s.phidot_staggered,
      cds := s.chidot_staggered, tgphi := 0, tgchi := 0 }
  obtain ⟨h1, h2⟩ := h
  constructor
  · rw [stepLoop, h1]; simp
  · rw [stepLoop, h2]; simp

lemma step_scalars (mp : ModelParams) (fs : FieldSize) (co : Collab)
    (s : VState) :
    (step mp fs co s).adot_staggered = s.adot + 0.5 * s.addot * s.dt ∧
    (step mp fs co s).dptdt_staggered = s.dptdt + 0.5 * s.ddptdt * s.dt ∧
    (step mp fs co s).a
      = s.a + s.adot * s.dt + 0.5 * s.addot * s.dt ^ 2 ∧
    (step mp fs co s).physical_time
      = s.physical_time + s.dptdt * s.dt + 0.5 * s.ddptdt * s.dt ^ 2 ∧
    (step mp fs co s).addot
      = co.adoubledot_staggered s.t s.dt (step mp fs co s).a
          (step mp fs co s).adot_staggered
          ((step mp fs co s).total_gradient_phi
            / (fs.total_gridpoints : ℝ) ^ 2)
          ((step mp fs co s).total_gradient_chi
            / (fs.total_gridpoints : ℝ) ^ 2)
          (co.integrate (step mp fs co s).phi (step mp fs co s).chi
            (step mp fs co s).a) ∧
    (step mp fs co s).adot
      = (step mp fs co s).adot_staggered
        + 0.5 * (step mp fs co s).addot * s.dt ∧
    (step mp fs co s).ddptdt
      = -mp.rescale_s / mp.rescale_B
        * (step mp fs co s).a ^ (-mp.rescale_s - 1) * (step mp fs co s).adot ∧
    (step mp fs co s).dptdt
      = (step mp fs co s).dptdt_staggered
        + 0.5 * (step mp fs co s).ddptdt * s.dt ∧
    (step mp fs co s).t = s.t ∧ (step mp fs co s).dt = s.dt ∧
    (step mp fs co s).total_gradient_phi = (stepLoop mp fs s).tgphi ∧
    (step mp fs co s).total_gradient_chi = (stepLoop mp fs s).tgchi :=
  ⟨rfl, rfl, rfl, rfl, rfl, rfl, rfl, rfl, rfl, rfl, rfl, rfl⟩

lemma step_phi (mp : ModelParams) (fs : FieldSize) (co : Collab)
    (s : VState) :
    (step mp fs co s).phi = (stepLoop mp fs s).phi ∧
    (step mp fs co s).chi = (stepLoop mp fs s).chi ∧
    (step mp fs co s).phidot_staggered = (stepLoop mp fs s).pds ∧
    (step mp fs co s).chidot_staggered = (stepLoop mp fs s).cds ∧
    (step mp fs co s).prods
      = co.transform (stepLoop mp fs s).phi (stepLoop mp fs s).chi
          (step mp fs co s).a :=
  ⟨rfl, rfl, rfl, rfl, rfl⟩

lemma step_kick (mp : ModelParams) (fs : FieldSize) (co : Collab)
    (s : VState) {k : Mode} (hk : inGrid fs.n k) :
    (step mp fs co s).phiddot k
      = kernelAccPhi mp (step mp fs co s).prods (step mp fs co s).phi
          (step mp fs co s).chi (step mp fs co s).a (step mp fs co s).adot
          (step mp fs co s).addot fs.n k ∧
    (step mp fs co s).chiddot k
      = kernelAccChi mp (step mp fs co s).prods (step mp fs co s).phi
          (step mp fs co s).chi (step mp fs co s).a (step mp fs co s).adot
          (step mp fs co s).addot fs.n k ∧
    (step mp fs co s).phidot k
      = (((step mp fs co s).phidot_staggered k).1
          + 0.5 * ((step mp fs co s).phiddot k).1 * s.dt,
         ((step mp fs co s).phidot_staggered k).2
          + 0.5 * ((step mp fs co s).phiddot k).2 * s.dt) ∧
    (step mp fs co s).chidot k
      = (((step mp fs co s).chidot_staggered k).1
          + 0.5 * ((step mp fs co s).chiddot k).1 * s.dt,
         ((step mp fs co s).chidot_staggered k).2
          + 0.5 * ((step mp fs co s).chiddot k).2 * s.dt) := by
  refine ⟨?_, ?_, ?_, ?_⟩
  · have h : (step mp fs co s).phiddot k
        = if inGrid fs.n k then
            kernelAccPhi mp (step mp fs co s).prods (step mp fs co s).phi
              (step mp fs co s).chi (step mp fs co s).a
              (step mp fs co s).adot (step mp fs co s).addot fs.n k
          else s.phiddot k := rfl
    rw [h, if_pos hk]
  · have h : (step mp fs co s).chiddot k
        = if inGrid fs.n k then
            kernelAccChi mp (step mp fs co s).prods (step mp fs co s).phi
              (step mp fs co s).chi (step mp fs co s).a
              (step mp fs co s).adot (step mp fs co s).addot fs.n k
          else s.chiddot k := rfl
    rw [h, if_pos hk]
  · have h0 : (step mp fs co s).phidot k
        = if inGrid fs.n k then
            (((stepLoop mp fs s).pds k).1
              + 0.5 * (kernelAccPhi mp (step mp fs co s).prods
                  (step mp fs co s).phi (step mp fs co s).chi
                  (step mp fs co s).a (step mp fs co s).adot
                  (step mp fs co s).addot fs.n k).1 * s.dt,
             ((stepLoop mp fs s).pds k).2
              + 0.5 * (kernelAccPhi mp (step mp fs co s).prods
                  (step mp fs co s).phi (step mp fs co s).chi
                  (step mp fs co s).a (step mp fs co s).adot
                  (step mp fs co s).addot fs.n k).2 * s.dt)
          else s.phidot k := rfl
    have h2 : (step mp fs co s).phiddot k
        = kernelAccPhi mp (step mp fs co s).prods (step mp fs co s).phi
            (step mp fs co s).chi (step mp fs co s).a
            (step mp fs co s).adot (step mp fs co s).addot fs.n k := by
      have h : (step mp fs co s).phiddot k
          = if inGrid fs.n k then
              kernelAccPhi mp (step mp fs co s).prods (step mp fs co s).phi
                (step mp fs co s).chi (step mp fs co s).a
                (step mp fs co s).adot (step mp fs co s).addot fs.n k
            else s.phiddot k := rfl
      rw [h, if_pos hk]
    rw [h0, if_pos hk, h2]
    rfl
  · have h0 : (step mp fs co s).chidot k
        = if inGrid fs.n k then
            (((stepLoop mp fs s).cds k).1
              + 0.5 * (kernelAccChi mp (step mp fs co s).prods
                  (step mp fs co s).phi (step mp fs co s).chi
                  (step mp fs co s).a (step mp fs co s).adot
                  (step mp fs co s).addot fs.n k).1 * s.dt,
             ((stepLoop mp fs s).cds k).2
              + 0.5 * (kernelAccChi mp (step mp fs co s).prods
                  (step mp fs co s).phi (step mp fs co s).chi
                  (step mp fs co s).a (step mp fs co s).adot
                  (step mp fs co s).addot fs.n k).2 * s.dt)
          else s.chidot k := rfl
    have h2 : (step mp fs co s).chiddot k
        = kernelAccChi mp (step mp fs co s).prods (step mp fs co s).phi
            (step mp fs co s).chi (step mp fs co s).a
            (step mp fs co s).adot (step mp fs co s).addot fs.n k := by
      have h : (step mp fs co s).chiddot k
          = if inGrid fs.n k then
              kernelAccChi mp (step mp fs co s).prods (step mp fs co s).phi
                (step mp fs co s).chi (step mp fs co s).a
                (step mp fs co s).adot (step mp fs co s).addot fs.n k
            else s.chiddot k := rfl
      rw [h, if_pos hk]
    rw [h0, if_pos hk, h2]
    rfl

/-- The per-mode kick-drift/second-kick contract of `verlet<R>::step` at a
stored mode `k`: the staggered velocities are set from the pre-step
velocities and accelerations, the fields drift by the staggered
velocities, the accelerations are recomputed by the Klein-Gordon kernels
at the post-step `(a, adot, addot)`, fields and rebuilt products, and the
velocities close the kick with the new accelerations. -/
def KickDriftContract (mp : ModelParams) (fs : FieldSize) (co : Collab)
    (s : VState) (k : Mode) : Prop :=
  (step mp fs co s).phidot_staggered k
    = ((s.phidot k).1 + 0.5 * (s.phiddot k).1 * s.dt,
       (s.phidot k).2 + 0.5 * (s.phiddot k).2 * s.dt) ∧
  (step mp fs co s).chidot_staggered k
    = ((s.chidot k).1 + 0.5 * (s.chiddot k).1 * s.dt,
       (s.chidot k).2 + 0.5 * (s.chiddot k).2 * s.dt) ∧
  (step mp fs co s).phi k
    = ((s.phi k).1 + ((step mp fs co s).phidot_staggered k).1 * s.dt,
       (s.phi k).2 + ((step mp fs co s).phidot_staggered k).2 * s.dt) ∧
  (step mp fs co s).chi k
    = ((s.chi k).1 + ((step mp fs co s).chidot_staggered k).1 * s.dt,
       (s.chi k).2 + ((step mp fs co s).chidot_staggered k).2 * s.dt) ∧
  (step mp fs co s).phiddot k
    = kernelAccPhi mp (step mp fs co s).prods (step mp fs co s).phi
        (step mp fs co s).chi (step mp fs co s).a (step mp fs co s).adot
        (step mp fs co s).addot fs.n k ∧
  (step mp fs co s).chiddot k
    = kernelAccChi mp (step mp fs co s).prods (step mp fs co s).phi
        (step mp fs co s).chi (step mp fs co s).a (step mp fs co s).adot
        (step mp fs co s).addot fs.n k ∧
  (step mp fs co s).phidot k
    = (((step mp fs co s).phidot_staggered k).1
        + 0.5 * ((step mp fs co s).phiddot k).1 * s.dt,
       ((step mp fs co s).phidot_staggered k).2
        + 0.5 * ((step mp fs co s).phiddot k).2 * s.dt) ∧
  (step mp fs co s).chidot k
    = (((step mp fs co s).chidot_staggered k).1
        + 0.5 * ((step mp fs co s).chiddot k).1 * s.dt,
       ((step mp fs co s).chidot_staggered k).2
        + 0.5 * ((step mp fs co s).chiddot k).2 * s.dt)

/-- C2.  In every call to `step()`, for every stored mode and component:
`phidot_staggered = phidot + 0.5 * phiddot * dt` and
`chidot_staggered = chidot + 0.5 * chiddot * dt` first, then
`phi += phidot_staggered * dt` and `chi += chidot_staggered * dt`; in the
second kick `phiddot`, `chiddot` are recomputed from the Klein-Gordon
acceleration at the new `(a, adot, addot)` and new field values, and
`phidot = phidot_staggered + 0.5 * phiddot * dt`,
`chidot = chidot_staggered + 0.5 * chiddot * dt`. -/
theorem step_kick_drift_per_mode (mp : ModelParams) (fs : FieldSize)
    (co : Collab) (s : VState) (k : Mode) (hk : inGrid fs.n k) :
    KickDriftContract mp fs co s k := by
  obtain ⟨hp, hc, hφ, hχ⟩ := stepLoop_grids mp fs s hk
  obtain ⟨k1, k2, k3, k4⟩ := step_kick mp fs co s hk
  have e1 : (step mp fs co s).phidot_staggered k = pdsVal s k := by
    rw [(step_phi mp fs co s).2.2.1, hp]
  have e2 : (step mp fs co s).chidot_staggered k = cdsVal s k := by
    rw [(step_phi mp fs co s).2.2.2.1, hc]
  refine ⟨e1, e2, ?_, ?_, k1, k2, k3, k4⟩
  · rw [(step_phi mp fs co s).1, hφ, e1]
    rfl
  · rw [(step_phi mp fs co s).2.1, hχ, e2]
    rfl

/-- Shared concrete instances used by the closed witness theorems. -/
noncomputable def zeroGrid : CGrid := fun _ => (0, 0)

noncomputable def zeroProds : Products :=
  ⟨zeroGrid, zeroGrid, zeroGrid, zeroGrid, zeroGrid, zeroGrid, zeroGrid,
   zeroGrid⟩

noncomputable def mp0 : ModelParams :=
  { rescale_A := 1, rescale_B := 1, rescale_r := 0, rescale_s := 0,
    m_phi := 0, m_chi := 0, lambda_phi := 0, lambda_chi := 0, g := 0,
    gamma_phi := 0, gamma_chi := 0, md_e_phi := 0, md_e_chi := 0, dp := 0 }

def fs0 : FieldSize := { n := 4, total_gridpoints := 64 }

noncomputable def co0 : Collab :=
  { integrate := fun _ _ _ => 0
    adoubledot := fun _ _ _ _ _ _ => 0
    adoubledot_staggered := fun _ _ _ _ _ _ _ => 0
    avg_gradients := fun _ _ => (0, 0)
    transform := fun _ _ _ => zeroProds }

noncomputable def s0 : VState :=
  { phi := zeroGrid, chi := zeroGrid, phidot := zeroGrid,
    chidot := zeroGrid, phiddot := zeroGrid, chiddot := zeroGrid,
    phidot_staggered := zeroGrid, chidot_staggered := zeroGrid,
    prods := zeroProds, t := 0, a := 1, adot := 0, addot := 0, dt := 1,
    physical_time := 0, dptdt := 0, ddptdt := 0, adot_staggered := 0,
    dptdt_staggered := 0, total_gradient_phi := 0,
    total_gradient_chi := 0 }

/-- Witness for C2: the contract at the concrete state `s0` and the
stored mode `(1, 2, 0)` of the `n = 4` grid. -/
theorem step_kick_drift_per_mode_witness :
    KickDriftContract mp0 fs0 co0 s0 (1, 2, 0) :=
  step_kick_drift_per_mode mp0 fs0 co0 s0 (1, 2, 0) (by decide)

/-- C3.  In every call to `step()` the scale-factor subsystem advances as:
`adot_staggered = ts.adot + 0.5 * addot * dt` and
`dptdt_staggered = dptdt + 0.5 * ddptdt * dt` from the pre-step values;
`ts.a += ts.adot * dt + 0.5 * addot * dt^2` and
`ts.physical_time += dptdt * dt + 0.5 * ddptdt * dt^2`; then
`ts.addot = adoubledot_staggered(t, dt, a, adot_staggered,
 avg_gradient_phi, avg_gradient_chi, avg_V)` with the drifted `a` and the
half-step velocity, `ts.adot = adot_staggered + 0.5 * ts.addot * dt`, and
`dptdt = dptdt_staggered + 0.5 * ddptdt * dt` with the recomputed
`ddptdt`. -/
theorem step_scale_factor_subsystem (mp : ModelParams) (fs : FieldSize)
    (co : Collab) (s : VState) :
    (step mp fs co s).adot_staggered = s.adot + 0.5 * s.addot * s.dt ∧
    (step mp fs co s).dptdt_staggered = s.dptdt + 0.5 * s.ddptdt * s.dt ∧
    (step mp fs co s).a
      = s.a + s.adot * s.dt + 0.5 * s.addot * s.dt ^ 2 ∧
    (step mp fs co s).physical_time
      = s.physical_time + s.dptdt * s.dt + 0.5 * s.ddptdt * s.dt ^ 2 ∧
    (step mp fs co s).addot
      = co.adoubledot_staggered s.t s.dt (step mp fs co s).a
          (step mp fs co s).adot_staggered
          ((step mp fs co s).total_gradient_phi
            / (fs.total_gridpoints : ℝ) ^ 2)
          ((step mp fs co s).total_gradient_chi
            / (fs.total_gridpoints : ℝ) ^ 2)
          (co.integrate (step mp fs co s).phi (step mp fs co s).chi
            (step mp fs co s).a) ∧
    (step mp fs co s).adot
      = (step mp fs co s).adot_staggered
        + 0.5 * (step mp fs co s).addot * s.dt ∧
    (step mp fs co s).dptdt
      = (step mp fs co s).dptdt_staggered
        + 0.5 * (step mp fs co s).ddptdt * s.dt :=
  ⟨rfl, rfl, rfl, rfl, rfl, rfl, rfl⟩

lemma sum_map_range (g : ℕ → ℝ) (n : ℕ) :
    ((List.range n).map g).sum = ∑ i ∈ Finset.range n, g i := by
  induction n with
  | zero => simp
  | succ m ih =>
    rw [List.range_succ, List.map_append, List.sum_append,
      Finset.sum_range_succ, ih]
    simp

lemma sum_map_flatMap {α β : Type} (g : β → ℝ) (l : List α)
    (f : α → List β) :
    ((l.flatMap f).map g).sum = (l.map fun a => ((f a).map g).sum).sum := by
  induction l with
  | nil => simp
  | cons a t ih =>
    rw [List.flatMap_cons, List.map_append, List.sum_append, ih,
      List.map_cons, List.sum_cons]

lemma modeList_map_sum (g : Mode → ℝ) (n : ℕ) :
    ((modeList n).map g).sum
      = ∑ x ∈ Finset.range n, ∑ y ∈ Finset.range n,
          ∑ z ∈ Finset.range (n / 2 + 1), g (x, y, z) := by
  unfold modeList
  rw [sum_map_flatMap, sum_map_range]
  refine Finset.sum_congr rfl fun x _ => ?_
  rw [sum_map_flatMap, sum_map_range]
  refine Finset.sum_congr rfl fun y _ => ?_
  rw [List.map_map, sum_map_range]
  exact Finset.sum_congr rfl fun z _ => rfl

/-- C4.  The gradient sums accumulated in `step()` equal, for each field,
the sum over all stored modes `(x, y, z)`, `z` in `[0, n/2]`, of
`w * dp^2 * (px^2 + py^2 + pz^2) * (Re^2 + Im^2)` with centred indices
and the parity weight `w = 1` when `z = 0` or `z = n/2`, else `2`; the
average gradients passed to the scale-factor update are these sums
divided by `total_gridpoints^2`. -/
theorem step_gradient_reduction (mp : ModelParams) (fs : FieldSize)
    (co : Collab) (s : VState) :
    (step mp fs co s).total_gradient_phi
      = (∑ x ∈ Finset.range fs.n, ∑ y ∈ Finset.range fs.n,
          ∑ z ∈ Finset.range (fs.n / 2 + 1),
          (if z = 0 ∨ z = fs.n / 2 then (1 : ℝ) else 2)
            * (mp.dp ^ 2 * (((pxOf fs.n x : ℤ) : ℝ) ^ 2
                + ((pxOf fs.n y : ℤ) : ℝ) ^ 2 + (z : ℝ) ^ 2))
            * (((step mp fs co s).phi (x, y, z)).1 ^ 2
                + ((step mp fs co s).phi (x, y, z)).2 ^ 2)) ∧
    (step mp fs co s).total_gradient_chi
      = (∑ x ∈ Finset.range fs.n, ∑ y ∈ Finset.range fs.n,
          ∑ z ∈ Finset.range (fs.n / 2 + 1),
          (if z = 0 ∨ z = fs.n / 2 then (1 : ℝ) else 2)
            * (mp.dp ^ 2 * (((pxOf fs.n x : ℤ) : ℝ) ^ 2
                + ((pxOf fs.n y : ℤ) : ℝ) ^ 2 + (z : ℝ) ^ 2))
            * (((step mp fs co s).chi (x, y, z)).1 ^ 2
                + ((step mp fs co s).chi (x, y, z)).2 ^ 2)) ∧
    (step mp fs co s).addot
      = co.adoubledot_staggered s.t s.dt (step mp fs co s).a
          (step mp fs co s).adot_staggered
          ((step mp fs co s).total_gradient_phi
            / (fs.total_gridpoints : ℝ) ^ 2)
          ((step mp fs co s).total_gradient_chi
            / (fs.total_gridpoints : ℝ) ^ 2)
          (co.integrate (step mp fs co s).phi (step mp fs co s).chi
            (step mp fs co s).a) := by
  refine ⟨?_, ?_, rfl⟩
  · have h0 : (step mp fs co s).total_gradient_phi
        = (stepLoop mp fs s).tgphi := rfl
    rw [h0, (stepLoop_tg mp fs s).1, modeList_map_sum]
    refine Finset.sum_congr rfl fun x hx => Finset.sum_congr rfl
      fun y hy => Finset.sum_congr rfl fun z hz => ?_
    have hk : inGrid fs.n (x, y, z) :=
      ⟨Finset.mem_range.mp hx, Finset.mem_range.mp hy,
       Finset.mem_range.mp hz⟩
    have hphi : (step mp fs co s).phi (x, y, z)
        = phiDrift s (s.phi (x, y, z)) (x, y, z) := by
      rw [(step_phi mp fs co s).1, (stepLoop_grids mp fs s hk).2.2.1]
    rw [hphi]
    unfold gContribPhi parityW mom2Of
    ring
  · have h0 : (step mp fs co s).total_gradient_chi
        = (stepLoop mp fs s).tgchi := rfl
    rw [h0, (stepLoop_tg mp fs s).2, modeList_map_sum]
    refine Finset.sum_congr rfl fun x hx => Finset.sum_congr rfl
      fun y hy => Finset.sum_congr rfl fun z hz => ?_
    have hk : inGrid fs.n (x, y, z) :=
      ⟨Finset.mem_range.mp hx, Finset.mem_range.mp hy,
       Finset.mem_range.mp hz⟩
    have hchi : (step mp fs co s).chi (x, y, z)
        = chiDrift s (s.chi (x, y, z)) (x, y, z) := by
      rw [(step_phi mp fs co s).2.1, (stepLoop_grids mp fs s hk).2.2.2]
    rw [hchi]
    unfold gContribChi parityW mom2Of
    ring

/-- Phase 1 of the spec's step contract: the scale-factor drift.
Computes the staggered scalars from the pre-step values and drifts
`ts.a` and `ts.physical_time`. -/
noncomputable def phaseScaleFactorDrift (s : VState) : VState :=
  { s with
    adot_staggered := s.adot + 0.5 * s.addot * s.dt
    dptdt_staggered := s.dptdt + 0.5 * s.ddptdt * s.dt
    a := s.a + s.adot * s.dt + 0.5 * s.addot * s.dt ^ 2
    physical_time := s.physical_time + s.dptdt * s.dt
      + 0.5 * s.ddptdt * s.dt ^ 2 }

/-- Phase 2: the momentum-space kick-drift of the fields together with
the gradient reduction. -/
noncomputable def phaseKickDriftGradient (mp : ModelParams)
    (fs : FieldSize) (s : VState) : VState :=
  let ls := stepLoop mp fs s
  { s with
    phi := ls.phi
    chi := ls.chi
    phidot_staggered := ls.pds
    chidot_staggered := ls.cds
    total_gradient_phi := ls.tgphi
    total_gradient_chi := ls.tgchi }

/-- Phase 3: the scale-factor second-derivative update
(`adoubledot_staggered`, then `adot`, `ddptdt` and `dptdt`). -/
noncomputable def phaseScaleFactorUpdate (mp : ModelParams)
    (fs : FieldSize) (co : Collab) (s : VState) : VState :=
  let gphi := s.total_gradient_phi / (fs.total_gridpoints : ℝ) ^ 2
  let gchi := s.total_gradient_chi / (fs.total_gridpoints : ℝ) ^ 2
  let avgV := co.integrate s.phi s.chi s.a
  let addot2 := co.adoubledot_staggered s.t s.dt s.a s.adot_staggered
    gphi gchi avgV
  let adot2 := s.adot_staggered + 0.5 * addot2 * s.dt
  let ddptdt2 := -mp.rescale_s / mp.rescale_B * s.a ^ (-mp.rescale_s - 1)
    * adot2
  { s with
    addot := addot2
    adot := adot2
    ddptdt := ddptdt2
    dptdt := s.dptdt_staggered + 0.5 * ddptdt2 * s.dt }

/-- Phase 4: the nonlinear term rebuild (the builder's transform on the
drifted fields). -/
noncomputable def phaseNonlinearRebuild (co : Collab) (s : VState) :
    VState :=
  { s with prods := co.transform s.phi s.chi s.a }

/-- Phase 5: the velocity kick using the newly computed accelerations. -/
noncomputable def phaseVelocityKick (mp : ModelParams) (fs : FieldSize)
    (s : VState) : VState :=
  { s with
    phiddot := fun k => if inGrid fs.n k then
        kernelAccPhi mp s.prods s.phi s.chi s.a s.adot s.addot fs.n k
      else s.phiddot k
    chiddot := fun k => if inGrid fs.n k then
        kernelAccChi mp s.prods s.phi s.chi s.a s.adot s.addot fs.n k
      else s.chiddot k
    phidot := fun k => if inGrid fs.n k then
        ((s.phidot_staggered k).1 + 0.5 * (kernelAccPhi mp s.prods s.phi
            s.chi s.a s.adot s.addot fs.n k).1 * s.dt,
         (s.phidot_staggered k).2 + 0.5 * (kernelAccPhi mp s.prods s.phi
            s.chi s.a s.adot s.addot fs.n k).2 * s.dt)
      else s.phidot k
    chidot := fun k => if inGrid fs.n k then
        ((s.chidot_staggered k).1 + 0.5 * (kernelAccChi mp s.prods s.phi
            s.chi s.a s.adot s.addot fs.n k).1 * s.dt,
         (s.chidot_staggered k).2 + 0.5 * (kernelAccChi mp s.prods s.phi
            s.chi s.a s.adot s.addot fs.n k).2 * s.dt)
      else s.chidot k }

/-- C5.  Every execution of `step()` performs exactly the five phases of
the spec's ordering contract, in this order: (1) scale-factor drift,
(2) momentum-space kick-drift with the gradient reduction, (3) the
scale-factor second-derivative update, (4) the nonlinear term rebuild,
(5) the velocity kick with the new accelerations.  `step` is literally
the composition of the five phase functions in that order. -/
theorem step_phase_order (mp : ModelParams) (fs : FieldSize) (co : Collab)
    (s : VState) :
    step mp fs co s
      = phaseVelocityKick mp fs
          (phaseNonlinearRebuild co
            (phaseScaleFactorUpdate mp fs co
              (phaseKickDriftGradient mp fs
                (phaseScaleFactorDrift s)))) := rfl

/-- Parameters for the `dptdt` counterexample: `rescale_s = -1`,
`rescale_B = 1`, so the formula `-s/B * a^(-s-1) * adot` is `adot`. -/
noncomputable def mpC6 : ModelParams :=
  { rescale_A := 1, rescale_B := 1, rescale_r := 0, rescale_s := -1,
    m_phi := 0, m_chi := 0, lambda_phi := 0, lambda_chi := 0, g := 0,
    gamma_phi := 0, gamma_chi := 0, md_e_phi := 0, md_e_chi := 0, dp := 0 }

/-- State for the `dptdt` counterexample: `a = 1`, `adot = 1`,
`addot = 0`, `dt = 1`, `dptdt = 1` (so the claimed invariant holds before
the step) and `ddptdt = 1` (its value from `initialize` at this state). -/
noncomputable def sC6 : VState :=
  { phi := zeroGrid, chi := zeroGrid, phidot := zeroGrid,
    chidot := zeroGrid, phiddot := zeroGrid, chiddot := zeroGrid,
    phidot_staggered := zeroGrid, chidot_staggered := zeroGrid,
    prods := zeroProds, t := 0, a := 1, adot := 1, addot := 0, dt := 1,
    physical_time := 0, dptdt := 1, ddptdt := 1, adot_staggered := 0,
    dptdt_staggered := 0, total_gradient_phi := 0,
    total_gradient_chi := 0 }

/-- Counterexample to C6 as stated: at a concrete state satisfying
`dptdt = -s/B * a^(-s-1) * adot`, one call to `step()` breaks that
equation for `dptdt` — the integrator's `dptdt` is the trapezoidal
integral of `ddptdt`, not the closed formula. -/
theorem dptdt_formula_counterexample :
    sC6.dptdt = -mpC6.rescale_s / mpC6.rescale_B
      * sC6.a ^ (-mpC6.rescale_s - 1) * sC6.adot ∧
    ¬ ((step mpC6 fs0 co0 sC6).dptdt
        = -mpC6.rescale_s / mpC6.rescale_B
          * (step mpC6 fs0 co0 sC6).a ^ (-mpC6.rescale_s - 1)
          * (step mpC6 fs0 co0 sC6).adot) := by
  have he : -mpC6.rescale_s - 1 = (0 : ℝ) := by norm_num [mpC6]
  have ha : (step mpC6 fs0 co0 sC6).a = 2 := by
    have h : (step mpC6 fs0 co0 sC6).a
        = sC6.a + sC6.adot * sC6.dt + 0.5 * sC6.addot * sC6.dt ^ 2 := rfl
    rw [h]; norm_num [sC6]
  have haddot : (step mpC6 fs0 co0 sC6).addot = 0 := rfl
  have hadot : (step mpC6 fs0 co0 sC6).adot = 1 := by
    have h : (step mpC6 fs0 co0 sC6).adot
        = (sC6.adot + 0.5 * sC6.addot * sC6.dt)
          + 0.5 * (step mpC6 fs0 co0 sC6).addot * sC6.dt := rfl
    rw [h, haddot]; norm_num [sC6]
  have hdd : (step mpC6 fs0 co0 sC6).ddptdt = 1 := by
    have h : (step mpC6 fs0 co0 sC6).ddptdt
        = -mpC6.rescale_s / mpC6.rescale_B
          * (step mpC6 fs0 co0 sC6).a ^ (-mpC6.rescale_s - 1)
          * (step mpC6 fs0 co0 sC6).adot := rfl
    rw [h, ha, hadot, he, Real.rpow_zero]; norm_num [mpC6]
  have hd : (step mpC6 fs0 co0 sC6).dptdt = 2 := by
    have h1 : (step mpC6 fs0 co0 sC6).dptdt
        = (step mpC6 fs0 co0 sC6).dptdt_staggered
          + 0.5 * (step mpC6 fs0 co0 sC6).ddptdt * sC6.dt := rfl
    have h2 : (step mpC6 fs0 co0 sC6).dptdt_staggered
        = sC6.dptdt + 0.5 * sC6.ddptdt * sC6.dt := rfl
    rw [h1, h2, hdd]; norm_num [sC6]
  constructor
  · rw [he, Real.rpow_zero]; norm_num [mpC6, sC6]
  · rw [hd, ha, hadot, he, Real.rpow_zero]; norm_num [mpC6]

/-- C6, amended.  The quantity the integrator keeps equal to
`-s/B * a^(-s-1) * adot` at every step boundary is `ddptdt` (the time
derivative of `dptdt`): both `initialize()` and every `step()` leave
`ddptdt = -rescale_s/rescale_B * a^(-rescale_s-1) * adot` at their final
`(a, adot)`; `dptdt` itself is advanced by the staggered trapezoidal
integral of `ddptdt`. -/
theorem ddptdt_tracks_formula (mp : ModelParams) (fs : FieldSize)
    (co : Collab) (s : VState) :
    (vinit mp fs co s).ddptdt
      = -mp.rescale_s / mp.rescale_B
        * (vinit mp fs co s).a ^ (-mp.rescale_s - 1)
        * (vinit mp fs co s).adot ∧
    (step mp fs co s).ddptdt
      = -mp.rescale_s / mp.rescale_B
        * (step mp fs co s).a ^ (-mp.rescale_s - 1)
        * (step mp fs co s).adot ∧
    (step mp fs co s).dptdt
      = (step mp fs co s).dptdt_staggered
        + 0.5 * (step mp fs co s).ddptdt * s.dt :=
  ⟨rfl, rfl, rfl⟩

/-- Which coupling terms the spec's variant omits entirely: one flag per
gated coefficient (`lambda_phi`, `lambda_chi`, `gamma_phi`, `gamma_chi`,
`md_e_phi`, `md_e_chi`). -/
structure SkipFlags where
  skip_lambda_phi : Bool
  skip_lambda_chi : Bool
  skip_gamma_phi : Bool
  skip_gamma_chi : Bool
  skip_md_phi : Bool
  skip_md_chi : Bool

/-- Modelled from the spec: the `phi` acceleration of a code path that
omits the flagged coupling terms entirely (the `phi^3` term, the `phi^5`
term, and/or the mass-damping branch, which the variant replaces by the
plain `m_phi^2` mass term).  Unflagged terms are computed exactly as in
`dphidotdt`. -/
noncomputable def dphidotdtSkip (sk : SkipFlags) (mp : ModelParams)
    (phi chi chi2phi phi3 phi5 phi_md a_t adot_t addot_t mom2 : ℝ) : ℝ :=
  -a_t ^ (-2 * mp.rescale_s - 2) * mom2 * phi +
    mp.rescale_r * ((mp.rescale_s - mp.rescale_r + 2) * (adot_t / a_t) ^ 2
      + addot_t / a_t) * phi -
    a_t ^ (-2 * mp.rescale_s - 2 * mp.rescale_r) / mp.rescale_B ^ 2 *
      ((if sk.skip_md_phi = true then
          mp.m_phi ^ 2 * a_t ^ (2 * mp.rescale_r) * phi
        else if mp.md_e_phi ≠ 0 then a_t ^ (2 * mp.rescale_r) * phi_md
        else mp.m_phi ^ 2 * a_t ^ (2 * mp.rescale_r) * phi) +
       (if sk.skip_lambda_phi = true then 0
        else mp.lambda_phi / mp.rescale_A ^ 2 * phi3) +
       (mp.g / mp.rescale_A) ^ 2 * chi2phi +
       (if sk.skip_gamma_phi = true then 0
        else mp.gamma_phi / mp.rescale_A ^ 4 * a_t ^ (-2 * mp.rescale_r)
          * phi5))

/-- Modelled from the spec: the `chi` acceleration of the term-skipping
variant. -/
noncomputable def dchidotdtSkip (sk : SkipFlags) (mp : ModelParams)
    (phi chi phi2chi chi3 chi5 chi_md a_t adot_t addot_t mom2 : ℝ) : ℝ :=
  -a_t ^ (-2 * mp.rescale_s - 2) * mom2 * chi +
    mp.rescale_r * ((mp.rescale_s - mp.rescale_r + 2) * (adot_t / a_t) ^ 2
      + addot_t / a_t) * chi -
    a_t ^ (-2 * mp.rescale_s - 2 * mp.rescale_r) / mp.rescale_B ^ 2 *
      ((if sk.skip_md_chi = true then
          mp.m_chi ^ 2 * a_t ^ (2 * mp.rescale_r) * chi
        else if mp.md_e_chi ≠ 0 then a_t ^ (2 * mp.rescale_r) * chi_md
        else mp.m_chi ^ 2 * a_t ^ (2 * mp.rescale_r) * chi) +
       (if sk.skip_lambda_chi = true then 0
        else mp.lambda_chi / mp.rescale_A ^ 2 * chi3) +
       (mp.g / mp.rescale_A) ^ 2 * phi2chi +
       (if sk.skip_gamma_chi = true then 0
        else mp.gamma_chi / mp.rescale_A ^ 4 * a_t ^ (-2 * mp.rescale_r)
          * chi5))

/-- The variant kernel value for `phiddot` (same gated product reads as
the source kernel, acceleration by `dphidotdtSkip`). -/
noncomputable def kernelAccPhiSkip (sk : SkipFlags) (mp : ModelParams)
    (pr : Products) (phi chi : CGrid) (a adot addot : ℝ) (n : ℕ)
    (k : Mode) : ℝ × ℝ :=
  (dphidotdtSkip sk mp (phi k).1 (chi k).1 (pr.chi2phi k).1
    (if mp.lambda_phi ≠ 0 then (pr.phi3 k).1 else 0)
    (if mp.gamma_phi ≠ 0 then (pr.phi5 k).1 else 0)
    (if mp.md_e_phi ≠ 0 then (pr.phi_md k).1 else 0)
    a adot addot (mom2Of mp.dp n k),
   dphidotdtSkip sk mp (phi k).2 (chi k).2 (pr.chi2phi k).2
    (if mp.lambda_phi ≠ 0 then (pr.phi3 k).2 else 0)
    (if mp.gamma_phi ≠ 0 then (pr.phi5 k).2 else 0)
    (if mp.md_e_phi ≠ 0 then (pr.phi_md k).2 else 0)
    a adot addot (mom2Of mp.dp n k))

/-- The variant kernel value for `chiddot`. -/
noncomputable def kernelAccChiSkip (sk : SkipFlags) (mp : ModelParams)
    (pr : Products) (phi chi : CGrid) (a adot addot : ℝ) (n : ℕ)
    (k : Mode) : ℝ × ℝ :=
  (dchidotdtSkip sk mp (phi k).1 (chi k).1 (pr.phi2chi k).1
    (if mp.lambda_chi ≠ 0 then (pr.chi3 k).1 else 0)
    (if mp.gamma_chi ≠ 0 then (pr.chi5 k).1 else 0)
    (if mp.md_e_chi ≠ 0 then (pr.chi_md k).1 else 0)
    a adot addot (mom2Of mp.dp n k),
   dchidotdtSkip sk mp (phi k).2 (chi k).2 (pr.phi2chi k).2
    (if mp.lambda_chi ≠ 0 then (pr.chi3 k).2 else 0)
    (if mp.gamma_chi ≠ 0 then (pr.chi5 k).2 else 0)
    (if mp.md_e_chi ≠ 0 then (pr.chi_md k).2 else 0)
    a adot addot (mom2Of mp.dp n k))

/-- The variant integrator step that omits the flagged coupling terms. -/
noncomputable def stepSkip (sk : SkipFlags) (mp : ModelParams)
    (fs : FieldSize) (co : Collab) (s : VState) : VState :=
  stepCore (kernelAccPhiSkip sk) (kernelAccChiSkip sk) mp fs co s

/-- The variant initialization that omits the flagged coupling terms. -/
noncomputable def vinitSkip (sk : SkipFlags) (mp : ModelParams)
    (fs : FieldSize) (co : Collab) (s : VState) : VState :=
  vinitCore (kernelAccPhiSkip sk) (kernelAccChiSkip sk) mp fs co s

/-- A term may only be skipped when its coupling coefficient is zero. -/
def SkipAgrees (sk : SkipFlags) (mp : ModelParams) : Prop :=
  (sk.skip_lambda_phi = true → mp.lambda_phi = 0) ∧
  (sk.skip_lambda_chi = true → mp.lambda_chi = 0) ∧
  (sk.skip_gamma_phi = true → mp.gamma_phi = 0) ∧
  (sk.skip_gamma_chi = true → mp.gamma_chi = 0) ∧
  (sk.skip_md_phi = true → mp.md_e_phi = 0) ∧
  (sk.skip_md_chi = true → mp.md_e_chi = 0)

lemma dphidotdtSkip_eq (sk : SkipFlags) (mp : ModelParams)
    (hl : sk.skip_lambda_phi = true → mp.lambda_phi = 0)
    (hg : sk.skip_gamma_phi = true → mp.gamma_phi = 0)
    (hm : sk.skip_md_phi = true → mp.md_e_phi = 0)
    (phi chi chi2phi phi3 phi5 phi_md a_t adot_t addot_t mom2 : ℝ) :
    dphidotdtSkip sk mp phi chi chi2phi
        (if mp.lambda_phi ≠ 0 then phi3 else 0)
        (if mp.gamma_phi ≠ 0 then phi5 else 0)
        (if mp.md_e_phi ≠ 0 then phi_md else 0)
        a_t adot_t addot_t mom2
      = gatedPhiAcc mp phi chi chi2phi phi3 phi5 phi_md a_t adot_t addot_t
          mom2 := by
  unfold dphidotdtSkip gatedPhiAcc dphidotdt
  by_cases b1 : sk.skip_lambda_phi = true <;>
    by_cases b2 : sk.skip_gamma_phi = true <;>
      by_cases b3 : sk.skip_md_phi = true <;>
        simp [b1, b2, b3, hl, hg, hm]

lemma dchidotdtSkip_eq (sk : SkipFlags) (mp : ModelParams)
    (hl : sk.skip_lambda_chi = true → mp.lambda_chi = 0)
    (hg : sk.skip_gamma_chi = true → mp.gamma_chi = 0)
    (hm : sk.skip_md_chi = true → mp.md_e_chi = 0)
    (phi chi phi2chi chi3 chi5 chi_md a_t adot_t addot_t mom2 : ℝ) :
    dchidotdtSkip sk mp phi chi phi2chi
        (if mp.lambda_chi ≠ 0 then chi3 else 0)
        (if mp.gamma_chi ≠ 0 then chi5 else 0)
        (if mp.md_e_chi ≠ 0 then chi_md else 0)
        a_t adot_t addot_t mom2
      = gatedChiAcc mp phi chi phi2chi chi3 chi5 chi_md a_t adot_t addot_t
          mom2 := by
  unfold dchidotdtSkip gatedChiAcc dchidotdt
  by_cases b1 : sk.skip_lambda_chi = true <;>
    by_cases b2 : sk.skip_gamma_chi = true <;>
      by_cases b3 : sk.skip_md_chi = true <;>
        simp [b1, b2, b3, hl, hg, hm]

lemma kernelAccPhiSkip_eq (sk : SkipFlags) (mp : ModelParams)
    (h : SkipAgrees sk mp) :
    kernelAccPhiSkip sk mp = kernelAccPhi mp := by
  obtain ⟨h1, _, h3, _, h5, _⟩ := h
  funext pr phi chi a adot addot n k
  unfold kernelAccPhiSkip kernelAccPhi
  rw [dphidotdtSkip_eq sk mp h1 h3 h5, dphidotdtSkip_eq sk mp h1 h3 h5]

lemma kernelAccChiSkip_eq (sk : SkipFlags) (mp : ModelParams)
    (h : SkipAgrees sk mp) :
    kernelAccChiSkip sk mp = kernelAccChi mp := by
  obtain ⟨_, h2, _, h4, _, h6⟩ := h
  funext pr phi chi a adot addot n k
  unfold kernelAccChiSkip kernelAccChi
  rw [dchidotdtSkip_eq sk mp h2 h4 h6, dchidotdtSkip_eq sk mp h2 h4 h6]

/-- C7.  Trajectories are insensitive to skipping zero couplings: for
every initial state and number of steps, the integrator (initialize then
iterate step) and the variant that omits every flagged coupling term give
numerically identical states, provided each flagged coefficient is zero.
In particular `lambda_phi = 0` makes the `phi^3`-free variant exact. -/
theorem coupling_gating_trajectories (sk : SkipFlags) (mp : ModelParams)
    (fs : FieldSize) (co : Collab) (s : VState) (nsteps : ℕ)
    (h : SkipAgrees sk mp) :
    (stepSkip sk mp fs co)^[nsteps] (vinitSkip sk mp fs co s)
      = (step mp fs co)^[nsteps] (vinit mp fs co s) := by
  have hP := kernelAccPhiSkip_eq sk mp h
  have hC := kernelAccChiSkip_eq sk mp h
  have hstep : stepSkip sk mp fs co = step mp fs co := by
    funext s'
    unfold stepSkip step stepCore
    rw [hP, hC]
  have hinit : vinitSkip sk mp fs co s = vinit mp fs co s := by
    unfold vinitSkip vinit vinitCore
    rw [hP, hC]
  rw [hstep, hinit]

/-- Witness for C7: all six couplings of `mp0` are zero, so skipping all
six terms leaves the two-step trajectory from `s0` unchanged. -/
theorem coupling_gating_trajectories_witness :
    (stepSkip ⟨true, true, true, true, true, true⟩ mp0 fs0 co0)^[2]
        (vinitSkip ⟨true, true, true, true, true, true⟩ mp0 fs0 co0 s0)
      = (step mp0 fs0 co0)^[2] (vinit mp0 fs0 co0 s0) :=
  coupling_gating_trajectories ⟨true, true, true, true, true, true⟩
    mp0 fs0 co0 s0 2
    ⟨fun _ => rfl, fun _ => rfl, fun _ => rfl, fun _ => rfl,
     fun _ => rfl, fun _ => rfl⟩

/-- The compile-time parameters of the slice output translation unit
(`RESCALE_A`, `RESCALE_B`, `RESCALE_R`, `RESCALE_S`,
`BEGIN_OUTPUT_TIME`, `NGRIDSIZE`) together with the potential
`model_params::V`, which lives in another translation unit and enters as
an opaque function. -/
structure SliceParams where
  rescale_A : ℝ
  rescale_B : ℝ
  rescale_r : ℝ
  rescale_s : ℝ
  begin_output_time : ℝ
  n : ℕ
  V : ℝ → ℝ → ℝ → ℝ

/-- Source function `compute_energy_scaling` of the slice output unit. -/
noncomputable def compute_energy_scaling (p : SliceParams)
    (a adot : ℝ) : ℝ :=
  8 * Real.pi / (3 * p.rescale_A ^ 2 * a ^ (2 * p.rescale_r)
    * (adot / a) ^ 2)

/-- Source function `compute_phi`: the stored physical field value
`a^(-RESCALE_R) * phi / RESCALE_A`. -/
noncomputable def compute_phi (p : SliceParams) (a phi : ℝ) : ℝ :=
  a ^ (-p.rescale_r) * phi / p.rescale_A

/-- Source function `compute_V_phys`: delegates to `model_params::V(phi, chi, a)`. -/
noncomputable def compute_V_phys (p : SliceParams) (a phi chi : ℝ) : ℝ :=
  p.V phi chi a

/-- Source function `compute_T_phi_phys`. -/
noncomputable def compute_T_phi_phys (p : SliceParams)
    (a adot phi phidot : ℝ) : ℝ :=
  0.5 * phidot ^ 2 - p.rescale_r * adot / a * phi * phidot +
    (p.rescale_r * adot / a) ^ 2 * 0.5 * phi ^ 2

/-- Source function `compute_T_chi_phys`. -/
noncomputable def compute_T_chi_phys (p : SliceParams)
    (a adot chi chidot : ℝ) : ℝ :=
  0.5 * chidot ^ 2 - p.rescale_r * adot / a * chi * chidot +
    (p.rescale_r * adot / a) ^ 2 * 0.5 * chi ^ 2

/-- Source function `compute_G_phi_phys`. -/
noncomputable def compute_G_phi_phys (p : SliceParams)
    (a phigradx phigrady phigradz : ℝ) : ℝ :=
  a ^ (-2 * p.rescale_s - 2) * 0.5
    * (phigradx ^ 2 + phigrady ^ 2 + phigradz ^ 2)

/-- Source function `compute_G_chi_phys`. -/
noncomputable def compute_G_chi_phys (p : SliceParams)
    (a chigradx chigrady chigradz : ℝ) : ℝ :=
  a ^ (-2 * p.rescale_s - 2) * 0.5
    * (chigradx ^ 2 + chigrady ^ 2 + chigradz ^ 2)

/-- Source function `compute_rho_phys`: the physical energy density at a point. -/
noncomputable def compute_rho_phys (p : SliceParams)
    (a adot phi chi phidot chidot phigradx chigradx phigrady chigrady
     phigradz chigradz : ℝ) : ℝ :=
  compute_V_phys p a phi chi
    + compute_T_phi_phys p a adot phi phidot
    + compute_T_chi_phys p a adot chi chidot
    + compute_G_phi_phys p a phigradx phigrady phigradz
    + compute_G_chi_phys p a chigradx chigrady chigradz

/-- Source function `compute_rho`: the scaled energy density. -/
noncomputable def compute_rho (p : SliceParams)
    (a adot phi chi phidot chidot phigradx chigradx phigrady chigrady
     phigradz chigradz : ℝ) : ℝ :=
  compute_energy_scaling p a adot *
    compute_rho_phys p a adot phi chi phidot chidot phigradx chigradx
      phigrady chigrady phigradz chigradz

/-- The padded position-space linear index of the in-place FFT layout:
`idx = z + 2*(n/2+1)*(y + n*x)` (`ldl = 2*(NGRIDSIZE/2+1)`). -/
def padIdx (n x y z : ℕ) : ℕ :=
  z + 2 * (n / 2 + 1) * (y + n * x)

/-- Source kernel `compute_phi_kernel` output at linear position-space index
`j = z + n*(y + n*x)`: decode `(x, y, z)`, read the padded input, apply
`compute_phi`. -/
noncomputable def phiOutAt (p : SliceParams) (phi : ℕ → ℝ) (a : ℝ)
    (j : ℕ) : ℝ :=
  compute_phi p a
    (phi (padIdx p.n (j / (p.n * p.n)) (j / p.n % p.n) (j % p.n)))

/-- The GPU gradient cache `gc` of the slice output manager, filled by
`gc.compute()` (code in another translation unit): the six position-space
gradient component arrays, padded layout. -/
structure GradCache where
  phigradx : ℕ → ℝ
  phigrady : ℕ → ℝ
  phigradz : ℕ → ℝ
  chigradx : ℕ → ℝ
  chigrady : ℕ → ℝ
  chigradz : ℕ → ℝ

/-- The representation flag of a dual-representation field. -/
inductive FieldRep
  | position : FieldRep
  | momentum : FieldRep

/-- The state visible to `slice_output_manager<R>::output`: the time
state it reads, the mathematical contents of the borrowed fields (their
position-space values, padded layout), the representation flags (the
`switch_state(position)` calls change only these, per the field-container
contract), and `bin_idx`. -/
structure SliceState where
  a : ℝ
  adot : ℝ
  physical_time : ℝ
  phi : ℕ → ℝ
  chi : ℕ → ℝ
  phidot : ℕ → ℝ
  chidot : ℕ → ℝ
  phiRep : FieldRep
  chiRep : FieldRep
  phidotRep : FieldRep
  chidotRep : FieldRep
  bin_idx : ℕ

/-- Source kernel `compute_rho_kernel` output at linear position-space index `j`. -/
noncomputable def rhoOutAt (p : SliceParams) (gc : GradCache)
    (st : SliceState) (j : ℕ) : ℝ :=
  compute_rho p st.a st.adot
    (st.phi (padIdx p.n (j / (p.n * p.n)) (j / p.n % p.n) (j % p.n)))
    (st.chi (padIdx p.n (j / (p.n * p.n)) (j / p.n % p.n) (j % p.n)))
    (st.phidot (padIdx p.n (j / (p.n * p.n)) (j / p.n % p.n) (j % p.n)))
    (st.chidot (padIdx p.n (j / (p.n * p.n)) (j / p.n % p.n) (j % p.n)))
    (gc.phigradx (padIdx p.n (j / (p.n * p.n)) (j / p.n % p.n) (j % p.n)))
    (gc.chigradx (padIdx p.n (j / (p.n * p.n)) (j / p.n % p.n) (j % p.n)))
    (gc.phigrady (padIdx p.n (j / (p.n * p.n)) (j / p.n % p.n) (j % p.n)))
    (gc.chigrady (padIdx p.n (j / (p.n * p.n)) (j / p.n % p.n) (j % p.n)))
    (gc.phigradz (padIdx p.n (j / (p.n * p.n)) (j / p.n % p.n) (j % p.n)))
    (gc.chigradz (padIdx p.n (j / (p.n * p.n)) (j / p.n % p.n) (j % p.n)))

/-- The outcome of the `open`/`pwrite` system calls per file name. -/
structure IOEnv where
  openOk : String → Bool
  writeOk : String → Bool

/-- The `"%s_%.5d.bin"` index field: the decimal digits of `i`,
zero-padded on the left to at least five characters. -/
def pad5 (i : ℕ) : String :=
  let s := toString i
  if s.length < 5 then String.mk (List.replicate (5 - s.length) '0') ++ s
  else s

/-- The snapshot file name `snprintf(name, 32, "%s_%.5d.bin", field,
idx)`. -/
def sliceFileName (field : String) (idx : ℕ) : String :=
  field ++ "_" ++ pad5 idx ++ ".bin"

/-- Source function `write_array_to_file`: on a failed `open`, emit the `perror`
diagnostic and write nothing; otherwise attempt the single `pwrite` of
the whole buffer, whose result the source discards (a failed write
produces neither a recorded file nor a diagnostic).  Returns the list of
files written and the list of diagnostics emitted.  (The `malloc`
failure path is not modelled; allocation is assumed to succeed.) -/
def write_array_to_file (env : IOEnv) (content : List ℝ) (field : String)
    (idx : ℕ) : List (String × List ℝ) × List String :=
  let name := sliceFileName field idx
  if env.openOk name then
    (if env.writeOk name then [(name, content)] else [], [])
  else
    ([], ["write_array_to_file: open failed."])

/-- The observable outcome of one `slice_output_manager<R>::output()`
call: the post-call state, the files written, the diagnostics emitted,
and whether `gc.compute()` ran. -/
structure OutResult where
  state : SliceState
  files : List (String × List ℝ)
  errors : List String
  gradComputed : Bool

/-- Source function `slice_output_manager<R>::output()`: return immediately while
`ts.physical_time * RESCALE_B < BEGIN_OUTPUT_TIME`; otherwise run
`gc.compute()`, switch the borrowed fields to position, build the `phi`
and `rho` position-space snapshots, write both files, and advance
`bin_idx`. -/
noncomputable def output (p : SliceParams) (env : IOEnv) (gc : GradCache)
    (st : SliceState) : OutResult :=
  if st.physical_time * p.rescale_B < p.begin_output_time then
    ⟨st, [], [], false⟩
  else
    let st2 : SliceState :=
      { st with
        phiRep := FieldRep.position
        chiRep := FieldRep.position
        phidotRep := FieldRep.position
        chidotRep := FieldRep.position }
    let phi_out := (List.range (p.n ^ 3)).map (phiOutAt p st.phi st.a)
    let rho_out := (List.range (p.n ^ 3)).map (rhoOutAt p gc st)
    let w1 := write_array_to_file env phi_out "phi" st.bin_idx
    let w2 := write_array_to_file env rho_out "rho" st.bin_idx
    ⟨{ st2 with bin_idx := st.bin_idx + 1 }, w1.1 ++ w2.1, w1.2 ++ w2.2,
     true⟩

/-- Counterexample to C8 as stated: the `phi = 2.0`, `n = 4` snapshot
holds `4^3 = 64` stored doubles, hence `8 * 64 = 512` bytes — not the
256 bytes the claim asserts. -/
theorem snapshot_256_bytes_counterexample :
    ((List.range (4 ^ 3)).map
        (phiOutAt ⟨1, 1, 0, 0, 1, 4, fun _ _ _ => 0⟩
          (fun _ => 2) 1)).length = 64 ∧
    ¬ (8 * ((List.range (4 ^ 3)).map
        (phiOutAt ⟨1, 1, 0, 0, 1, 4, fun _ _ _ => 0⟩
          (fun _ => 2) 1)).length = 256) := by
  constructor <;> simp

/-- C8, amended.  Each snapshot writes one binary file per field named
`<field>_<5-digit zero-padded index>.bin` holding the `n^3` stored
doubles in position-space linear order (8 bytes per double, no header);
for `phi` identically `2.0` on `n = 4` with `a = 1` the file holds 64
doubles all equal to `compute_phi(1, 2) = 2 / rescale_A`, which is
`8 * 64 = 512` bytes (not 256). -/
theorem snapshot_file_format (p : SliceParams) (content : List ℝ) :
    write_array_to_file ⟨fun _ => true, fun _ => true⟩ content "phi" 0
      = ([("phi_00000.bin", content)], []) ∧
    pad5 0 = "00000" ∧ pad5 123 = "00123" ∧ pad5 99999 = "99999" ∧
    sliceFileName "rho" 77 = "rho_00077.bin" ∧
    ((List.range (4 ^ 3)).map
        (phiOutAt { p with n := 4 } (fun _ => 2) 1))
      = List.replicate 64 (2 / p.rescale_A) ∧
    8 * ((List.range (4 ^ 3)).map
        (phiOutAt { p with n := 4 } (fun _ => 2) 1)).length = 512 := by
  have hval : ∀ j : ℕ, phiOutAt { p with n := 4 } (fun _ => 2) 1 j
      = 2 / p.rescale_A := by
    intro j
    unfold phiOutAt compute_phi
    rw [Real.one_rpow]
    ring
  refine ⟨rfl, rfl, rfl, rfl, rfl, ?_, ?_⟩
  · refine List.eq_replicate_iff.2 ⟨by simp, fun b hb => ?_⟩
    obtain ⟨j, _, rfl⟩ := List.mem_map.mp hb
    exact hval j
  · simp

/-- Shared concrete slice instances for the closed witnesses. -/
noncomputable def pS : SliceParams :=
  { rescale_A := 1, rescale_B := 1, rescale_r := 0, rescale_s := 0,
    begin_output_time := 1, n := 2, V := fun _ _ _ => 0 }

def envAllOk : IOEnv := { openOk := fun _ => true, writeOk := fun _ => true }

def envOpenFail : IOEnv :=
  { openOk := fun _ => false, writeOk := fun _ => true }

def envWriteFail : IOEnv :=
  { openOk := fun _ => true, writeOk := fun _ => false }

noncomputable def gcZero : GradCache :=
  ⟨fun _ => 0, fun _ => 0, fun _ => 0, fun _ => 0, fun _ => 0, fun _ => 0⟩

/-- A slice state before the configured begin-output time
(`physical_time * rescale_B = 0 < 1`). -/
noncomputable def stEarly : SliceState :=
  { a := 1, adot := 1, physical_time := 0, phi := fun _ => 0,
    chi := fun _ => 0, phidot := fun _ => 0, chidot := fun _ => 0,
    phiRep := FieldRep.momentum, chiRep := FieldRep.momentum,
    phidotRep := FieldRep.momentum, chidotRep := FieldRep.momentum,
    bin_idx := 3 }

/-- A slice state past the configured begin-output time
(`physical_time * rescale_B = 2 >= 1`). -/
noncomputable def stLate : SliceState :=
  { a := 1, adot := 1, physical_time := 2, phi := fun _ => 0,
    chi := fun _ => 0, phidot := fun _ => 0, chidot := fun _ => 0,
    phiRep := FieldRep.momentum, chiRep := FieldRep.momentum,
    phidotRep := FieldRep.momentum, chidotRep := FieldRep.momentum,
    bin_idx := 0 }

/-- Counterexample to C9 as stated: a failed `pwrite` is silently
ignored — with `open` succeeding and the write failing for every file,
`output()` emits no diagnostic at all and records no file, so the
failure is not reported to the driver (nor anywhere else). -/
theorem snapshot_write_failure_unreported :
    envWriteFail.writeOk (sliceFileName "phi" stLate.bin_idx) = false ∧
    (output pS envWriteFail gcZero stLate).errors = [] ∧
    (output pS envWriteFail gcZero stLate).files = [] := by
  have h1 : ¬ stLate.physical_time * pS.rescale_B < pS.begin_output_time
    := by norm_num [stLate, pS]
  refine ⟨rfl, ?_, ?_⟩ <;>
    · unfold output
      rw [if_neg h1]
      simp [write_array_to_file, envWriteFail]

/-- What actually holds on snapshot I/O failure: the time state and the
field contents are untouched, on a failed `open` the `perror` diagnostic
is emitted and nothing is recorded for the files, and `output()` runs to
completion (`bin_idx` still advances), so subsequent steps can
continue. -/
def OpenFailContract (p : SliceParams) (env : IOEnv) (gc : GradCache)
    (st : SliceState) : Prop :=
  (output p env gc st).state.a = st.a ∧
  (output p env gc st).state.adot = st.adot ∧
  (output p env gc st).state.physical_time = st.physical_time ∧
  (output p env gc st).state.phi = st.phi ∧
  (output p env gc st).state.chi = st.chi ∧
  (output p env gc st).state.phidot = st.phidot ∧
  (output p env gc st).state.chidot = st.chidot ∧
  (output p env gc st).files = [] ∧
  "write_array_to_file: open failed." ∈ (output p env gc st).errors ∧
  (output p env gc st).state.bin_idx = st.bin_idx + 1

/-- C9, amended.  When opening the snapshot files fails, the diagnostic
is emitted on the error stream (not returned to the driver), no file is
recorded, the integrator-visible state (time state, field contents) is
unchanged, and the call completes so the simulation may continue; a
failed write is silently ignored. -/
theorem snapshot_open_failure_contract (p : SliceParams) (env : IOEnv)
    (gc : GradCache) (st : SliceState)
    (h1 : ¬ st.physical_time * p.rescale_B < p.begin_output_time)
    (h2 : ∀ name, env.openOk name = false) :
    OpenFailContract p env gc st := by
  unfold OpenFailContract output
  rw [if_neg h1]
  simp [write_array_to_file, h2]

/-- Witness for the amended C9 at the concrete late state with every
`open` failing. -/
theorem snapshot_open_failure_contract_witness :
    OpenFailContract pS envOpenFail gcZero stLate :=
  snapshot_open_failure_contract pS envOpenFail gcZero stLate
    (by norm_num [stLate, pS]) (fun _ => rfl)

/-- C10.  While `ts.physical_time * RESCALE_B < BEGIN_OUTPUT_TIME`,
`output()` returns immediately with no observable effect: no file is
written, no diagnostic is emitted, `gc.compute()` does not run, no field
changes representation, and `bin_idx` is unchanged. -/
theorem output_before_begin_time (p : SliceParams) (env : IOEnv)
    (gc : GradCache) (st : SliceState)
    (h : st.physical_time * p.rescale_B < p.begin_output_time) :
    output p env gc st = ⟨st, [], [], false⟩ := by
  unfold output
  rw [if_pos h]

/-- Witness for C10 at the concrete early state. -/
theorem output_before_begin_time_witness :
    output pS envAllOk gcZero stEarly = ⟨stEarly, [], [], false⟩ :=
  output_before_begin_time pS envAllOk gcZero stEarly
    (by norm_num [stEarly, pS])

end PSpectre
